import Mathlib

/-!
Verification development for the HumanSent agent tick engine.

The definitions below are a shallow embedding of the TypeScript sources:
  - `src/functions/agent-tick.ts` (gate evaluation, tick orchestration,
    `executeAction`, `getActionCost`, memory merge),
  - `src/services/llm.ts` (`parseAgentOutput` and its fallbacks),
  - `src/services/slack.ts` and the gmail service (dry-run dispatch wrappers,
    channel resolution),
  - the supabase service (`upsertAgentState` upsert semantics together with the
    `agent_state` table defaults from the schema file),
  - the config module (`getTickIntervalMinutes`, `ENV`).

External collaborators (Slack/Gmail network calls, the LLM, the database) are
modelled as explicit outcome parameters: each dispatch call either returns a
receipt or raises an error message, mirroring a JavaScript promise rejection.
Wall-clock time is threaded as explicit millisecond timestamps and calendar-day
strings.
-/

namespace HumanSent

/-! ## Character/string helpers (JS regex and string operations) -/

/-- The open-brace character, written via its code point. -/
def braceOpenChar : Char := Char.ofNat 123

/-- The close-brace character, written via its code point. -/
def braceCloseChar : Char := Char.ofNat 125

/-- One-character string holding an open brace. -/
def braceOpenStr : String := String.singleton braceOpenChar

/-- Boolean check that `p` is a leading segment of `cs` (used to model JS
substring tests). -/
def seqStartsWith : List Char → List Char → Bool
  | [], _ => true
  | _ :: _, [] => false
  | p :: ps, c :: cs => p = c && seqStartsWith ps cs

/-- JS `String.prototype.toLowerCase` on the character list. -/
def jsToLower (s : String) : String := String.mk (s.data.map Char.toLower)

/-- JS `String.prototype.endsWith`. -/
def jsEndsWith (s sfx : String) : Bool := seqStartsWith sfx.data.reverse s.data.reverse

/-- JS `String.prototype.startsWith`. -/
def jsStartsWith (s pre : String) : Bool := seqStartsWith pre.data s.data

/-- Boolean substring containment on character lists. -/
def containsSeq (pat : List Char) : List Char → Bool
  | [] => seqStartsWith pat []
  | c :: rest => seqStartsWith pat (c :: rest) || containsSeq pat rest

/-- JS `\w` word-character class (ASCII letters, digits, underscore). -/
def isWordChar (c : Char) : Bool := c.isAlphanum || c = '_'

/-- Does `/@precedent\b/` match at the head of `cs` (already lowercased)? -/
def atPrecedentHere (cs : List Char) : Bool :=
  seqStartsWith "@precedent".toList cs &&
    (match cs.drop 10 with
     | [] => true
     | c :: _ => !isWordChar c)

/-- Does `/@precedent\b/` match anywhere in `cs`? -/
def hasAtPrecedent : List Char → Bool
  | [] => false
  | c :: rest => atPrecedentHere (c :: rest) || hasAtPrecedent rest

/-- `agent-tick.ts` guardrail test:
`/@precedent\b/i.test(text) || /precedent ai/i.test(text)`. -/
def mentionsPrecedent (text : String) : Bool :=
  hasAtPrecedent (jsToLower text).toList ||
    containsSeq "precedent ai".toList (jsToLower text).toList

/-! ## Actions (`src/types/actions.ts` tagged union, as consumed by the engine) -/

/-- The oracle-proposed action union. Field selections match what
`executeAction` reads; optional JSON fields that the engine defaults with
`|| []` are carried as plain lists. -/
inductive AgentAction
  | send_email (toAddrs cc : List String) (subject body : String)
      (conversationId inReplyTo : Option String)
  | send_slack_message (channel text : String) (threadTs : Option String)
  | create_task (title : String) (description : Option String)
      (assignedTo : String) (dueAt linkedConversationId : Option String)
  | mark_task_done (taskId : String)
  | snooze_task (taskId untilTs : String)
  | use_precedent (intent : String) (query extraContext threadTs : Option String)
  | no_action (reason : String)
  deriving Repr, DecidableEq

/-- The `type` discriminant string of an action. -/
def AgentAction.actionType : AgentAction → String
  | .send_email _ _ _ _ _ _ => "send_email"
  | .send_slack_message _ _ _ => "send_slack_message"
  | .create_task _ _ _ _ _ => "create_task"
  | .mark_task_done _ => "mark_task_done"
  | .snooze_task _ _ => "snooze_task"
  | .use_precedent _ _ _ _ => "use_precedent"
  | .no_action _ => "no_action"

/-- `getActionCost` from `agent-tick.ts`: the fixed integer cost table. -/
def getActionCost (a : AgentAction) : Nat :=
  match a with
  | .send_email _ _ _ _ _ _ => 10
  | .send_slack_message _ _ _ => 5
  | .create_task _ _ _ _ _ => 3
  | .mark_task_done _ => 1
  | .snooze_task _ _ => 1
  | .use_precedent _ _ _ _ => 5
  | .no_action _ => 0

/-! ## Action execution environment and outcomes -/

/-- Receipt of a (possibly simulated) email send. -/
structure EmailReceipt where
  messageId : String
  threadId : String
  deriving Repr, DecidableEq

/-- Receipt of a (possibly simulated) Slack post. -/
structure SlackReceipt where
  ts : String
  channel : String
  deriving Repr, DecidableEq

/-- An external side effect actually performed (dry-run dispatches perform
none). -/
inductive Dispatch
  | email (toAddrs cc : List String) (subject body : String)
  | slackPost (channelId text : String)
  | slackDm (userId text : String)
  deriving Repr, DecidableEq

/-- Behaviour of the external collaborators during one action execution.
`Except.error m` models the corresponding client call throwing `m`. -/
structure Env where
  dryRun : Bool
  resolveChannel : String → Option String
  emailDispatch : Except String EmailReceipt
  slackDispatch : Except String SlackReceipt
  dmDispatch : Except String SlackReceipt
  precedentEnabled : Bool
  precedentUserId : Option String

/-- The `ActionResult` returned by `executeAction`. -/
structure ActionResult where
  action : AgentAction
  success : Bool
  error : Option String
  deriving Repr, DecidableEq

/-- One row written by `db.logAgentAction`. -/
structure LogEntry where
  actionType : String
  success : Bool
  errorMessage : Option String
  reasoning : Option String
  deriving Repr, DecidableEq

/-- Everything observable from one `executeAction` call. -/
structure ExecOutcome where
  result : ActionResult
  logs : List LogEntry
  dispatched : List Dispatch
  deriving Repr, DecidableEq

/-- The security-block message for external email recipients, from
`agent-tick.ts`. -/
def blockedEmailMessage (externalEmails : List String) : String :=
  "BLOCKED: Attempted to email external addresses: " ++
    String.intercalate ", " externalEmails ++
    ". Agents may ONLY email @humansent.co addresses."

/-- The guardrail message for channel posts that mention Precedent. -/
def precedentChannelBlockMessage : String :=
  "Precedent must be contacted via DM (use the use_precedent action). Posting @Precedent in channels will not work."

/-- Error string for dry-run email dispatch. -/
def dryRunEmailMessage : String := "DRY_RUN_MODE enabled (email not sent)"

/-- Error string for dry-run Slack dispatch. -/
def dryRunSlackMessage : String := "DRY_RUN_MODE enabled (Slack message not sent)"

/-- Error string for dry-run Precedent DM dispatch. -/
def dryRunPrecedentMessage : String := "DRY_RUN_MODE enabled (Precedent DM not sent)"

/-- Error string when the Precedent Slack user id is not configured. -/
def missingPrecedentUserMessage : String :=
  "Missing PRECEDENT_SLACK_USER_ID environment variable (Precedent must be contacted via DM)."

/-- Outcome of the `catch` block in `executeAction`: one failed log entry and a
failed result carrying the exception message. -/
def catchOutcome (a : AgentAction) (msg : String) : ExecOutcome :=
  { result := { action := a, success := false, error := some msg }
    logs := [{ actionType := a.actionType, success := false,
               errorMessage := some msg, reasoning := none }]
    dispatched := [] }

/-- `executeAction` from `agent-tick.ts`, per action kind. Database writes
(`logAgentAction`, `upsertConversation`, `upsertMessages`, task table calls)
are modelled as infallible; external dispatch calls take their outcome from
`env`. -/
def executeAction (env : Env) (a : AgentAction) : ExecOutcome :=
  match a with
  | .send_email toAddrs cc subject body _conversationId _inReplyTo =>
    let allRecipients := toAddrs ++ cc
    let externalEmails := allRecipients.filter (fun e => !(jsEndsWith e "@humansent.co"))
    if externalEmails.length > 0 then
      let errorMessage := blockedEmailMessage externalEmails
      { result := { action := a, success := false, error := some errorMessage }
        logs := [{ actionType := "send_email", success := false,
                   errorMessage := some errorMessage, reasoning := none }]
        dispatched := [] }
    else if env.dryRun then
      { result := { action := a, success := false, error := some dryRunEmailMessage }
        logs := [{ actionType := "send_email", success := false,
                   errorMessage := some dryRunEmailMessage, reasoning := none }]
        dispatched := [] }
    else
      match env.emailDispatch with
      | .error msg => catchOutcome a msg
      | .ok _receipt =>
        { result := { action := a, success := true, error := none }
          logs := [{ actionType := "send_email", success := true,
                     errorMessage := none, reasoning := none }]
          dispatched := [.email toAddrs cc subject body] }
  | .send_slack_message channel text _threadTs =>
    let resolved : Except String String :=
      if jsStartsWith channel "#" then
        match env.resolveChannel channel with
        | none => .error ("Channel not found: " ++ channel)
        | some id => .ok id
      else .ok channel
    match resolved with
    | .error msg => catchOutcome a msg
    | .ok channelId =>
      if mentionsPrecedent text then
        { result := { action := a, success := false,
                      error := some precedentChannelBlockMessage }
          logs := [{ actionType := "send_slack_message", success := false,
                     errorMessage := some precedentChannelBlockMessage,
                     reasoning := none }]
          dispatched := [] }
      else if env.dryRun then
        { result := { action := a, success := false, error := some dryRunSlackMessage }
          logs := [{ actionType := "send_slack_message", success := false,
                     errorMessage := some dryRunSlackMessage, reasoning := none }]
          dispatched := [] }
      else
        match env.slackDispatch with
        | .error msg => catchOutcome a msg
        | .ok _receipt =>
          { result := { action := a, success := true, error := none }
            logs := [{ actionType := "send_slack_message", success := true,
                       errorMessage := none, reasoning := none }]
            dispatched := [.slackPost channelId text] }
  | .create_task _ _ _ _ _ =>
    { result := { action := a, success := true, error := none }
      logs := [{ actionType := "create_task", success := true,
                 errorMessage := none, reasoning := none }]
      dispatched := [] }
  | .mark_task_done _ =>
    { result := { action := a, success := true, error := none }
      logs := [{ actionType := "mark_task_done", success := true,
                 errorMessage := none, reasoning := none }]
      dispatched := [] }
  | .snooze_task _ _ =>
    { result := { action := a, success := true, error := none }
      logs := [{ actionType := "snooze_task", success := true,
                 errorMessage := none, reasoning := none }]
      dispatched := [] }
  | .use_precedent intent query extraContext _threadTs =>
    if !env.precedentEnabled then
      { result := { action := a, success := false,
                    error := some "Precedent integration disabled" }
        logs := [{ actionType := "use_precedent", success := false,
                   errorMessage := some "Precedent integration disabled",
                   reasoning := some "Precedent integration disabled" }]
        dispatched := [] }
    else
      match env.precedentUserId with
      | none =>
        { result := { action := a, success := false,
                      error := some missingPrecedentUserMessage }
          logs := [{ actionType := "use_precedent", success := false,
                     errorMessage := some missingPrecedentUserMessage,
                     reasoning := none }]
          dispatched := [] }
      | some uid =>
        let precedentMessage :=
          match query with
          | some q =>
            if intent = "query" then "@Precedent " ++ q
            else "@Precedent " ++ intent ++
              (match extraContext with
               | some x => " (" ++ x ++ ")"
               | none => "")
          | none =>
            "@Precedent " ++ intent ++
              (match extraContext with
               | some x => " (" ++ x ++ ")"
               | none => "")
        if env.dryRun then
          { result := { action := a, success := false,
                        error := some dryRunPrecedentMessage }
            logs := [{ actionType := "use_precedent", success := false,
                       errorMessage := some dryRunPrecedentMessage, reasoning := none }]
            dispatched := [] }
        else
          match env.dmDispatch with
          | .error msg => catchOutcome a msg
          | .ok _receipt =>
            { result := { action := a, success := true, error := none }
              logs := [{ actionType := "use_precedent", success := true,
                         errorMessage := none, reasoning := none }]
              dispatched := [.slackDm uid precedentMessage] }
  | .no_action reason =>
    { result := { action := a, success := true, error := none }
      logs := [{ actionType := "no_action", success := true,
                 errorMessage := none, reasoning := some reason }]
      dispatched := [] }

/-! ## Oracle output (`Decision`) and memory updates -/

/-- The optional reasoning block of the oracle output. -/
structure ReasoningM where
  highestPriority : Option String := none
  deferredItems : Option (List String) := none
  budgetAssessment : Option String := none
  observations : Option String := none
  deriving Repr, DecidableEq

/-- The optional memory-update instruction of the oracle output. -/
structure MemoryUpdatesM where
  observations : Option (List String) := none
  forget : Option (List String) := none
  deriving Repr, DecidableEq

/-- The typed oracle decision (`AgentOutput` in the source). -/
structure AgentOutput where
  reasoning : Option ReasoningM
  actions : List AgentAction
  memoryUpdates : Option MemoryUpdatesM := none
  deriving Repr, DecidableEq

/-! ## Oracle raw-output parsing (`services/llm.ts`) -/

/-- A parsed JSON value, as `JSON.parse` would produce. -/
inductive Json
  | null
  | bool (b : Bool)
  | num (n : Int)
  | str (s : String)
  | arr (items : List Json)
  | obj (fields : List (String × Json))

/-- First binding of `key` in a JSON object field list. -/
def getField : List (String × Json) → String → Option Json
  | [], _ => none
  | (k, v) :: rest, key => if k = key then some v else getField rest key

/-- Schema helper: required string field. -/
def reqStr (fields : List (String × Json)) (key : String) : Option String :=
  match getField fields key with
  | some (.str s) => some s
  | _ => none

/-- Schema helper: optional string field (absent is fine, wrong type is a
validation failure). -/
def optStr (fields : List (String × Json)) (key : String) : Option (Option String) :=
  match getField fields key with
  | none => some none
  | some (.str s) => some (some s)
  | some _ => none

/-- Schema helper: a JSON array of strings. -/
def asStrList : Json → Option (List String)
  | .arr items => items.mapM (fun j =>
      match j with
      | .str s => some s
      | _ => none)
  | _ => none

/-- Schema helper: required string-array field. -/
def reqStrList (fields : List (String × Json)) (key : String) : Option (List String) :=
  match getField fields key with
  | some j => asStrList j
  | none => none

/-- Schema helper: optional string-array field. -/
def optStrList (fields : List (String × Json)) (key : String) :
    Option (Option (List String)) :=
  match getField fields key with
  | none => some none
  | some j => (asStrList j).map some

/-- The zod string-format refinements `z.string().email()` and
`z.string().uuid()` used by `SendEmailActionSchema`, `MarkTaskDoneActionSchema`
and `SnoozeTaskActionSchema`. Their regexes live inside the zod library (whose
version the repository does not pin), so they are supplied to the validator as
Boolean predicates; every structural check written in the schema module itself
is embedded concretely below. -/
structure ZodStringChecks where
  emailValid : String → Bool
  uuidValid : String → Bool

/-- `z.string().min(lo).max(hi)`: the string length lies within the bounds. -/
def zodLenBetween (s : String) (lo hi : Nat) : Bool :=
  lo ≤ s.length && s.length ≤ hi

/-- `z.string().min(lo)`. -/
def zodLenMin (s : String) (lo : Nat) : Bool := lo ≤ s.length

/-- `z.string().max(hi)`. -/
def zodLenMax (s : String) (hi : Nat) : Bool := s.length ≤ hi

/-- `ActionSchema` from the action-schema module of `src/src/types/agent.ts`
(the `src/types/actions.ts` content): a zod discriminated union on the `type`
literal, one object schema per action kind, with the source's length bounds,
e-mail and uuid refinements, and the `use_precedent` intent enum. A zod
object strips unknown keys, so fields outside a kind's schema are ignored; in
particular `UsePrecedentActionSchema` has no `query` or `threadTs` field, and
validation never populates those fields that `executeAction` reads. An
unknown discriminant is a validation failure. -/
def validateAction (zc : ZodStringChecks) (j : Json) : Option AgentAction :=
  match j with
  | .obj f =>
    match getField f "type" with
    | some (.str t) =>
      if t = "send_email" then do
        let toAddrs ← reqStrList f "to"
        let cc ← optStrList f "cc"
        let subject ← reqStr f "subject"
        let body ← reqStr f "body"
        let conversationId ← optStr f "conversationId"
        let inReplyTo ← optStr f "inReplyTo"
        if toAddrs.all zc.emailValid && (cc.getD []).all zc.emailValid
            && zodLenBetween subject 1 200 && zodLenBetween body 1 10000 then
          pure (.send_email toAddrs (cc.getD []) subject body conversationId inReplyTo)
        else none
      else if t = "send_slack_message" then do
        let channel ← reqStr f "channel"
        let text ← reqStr f "text"
        let threadTs ← optStr f "threadTs"
        if zodLenMin channel 1 && zodLenBetween text 1 4000 then
          pure (.send_slack_message channel text threadTs)
        else none
      else if t = "create_task" then do
        let title ← reqStr f "title"
        let description ← optStr f "description"
        let assignedTo ← reqStr f "assignedTo"
        let dueAt ← optStr f "dueAt"
        let linkedConversationId ← optStr f "linkedConversationId"
        if zodLenBetween title 1 200
            && (match description with
                | some d => zodLenMax d 2000
                | none => true) then
          pure (.create_task title description assignedTo dueAt linkedConversationId)
        else none
      else if t = "mark_task_done" then do
        let taskId ← reqStr f "taskId"
        if zc.uuidValid taskId then pure (.mark_task_done taskId)
        else none
      else if t = "snooze_task" then do
        let taskId ← reqStr f "taskId"
        let untilTs ← reqStr f "until"
        if zc.uuidValid taskId then pure (.snooze_task taskId untilTs)
        else none
      else if t = "use_precedent" then do
        let intent ← reqStr f "intent"
        let extraContext ← optStr f "extraContext"
        if ["briefing", "urgent", "situations", "vips", "calendar"].contains intent then
          pure (.use_precedent intent none extraContext none)
        else none
      else if t = "no_action" then do
        let reason ← reqStr f "reason"
        if zodLenBetween reason 1 500 then pure (.no_action reason)
        else none
      else none
    | _ => none
  | _ => none

/-- `AgentOutputSchema` from the action-schema module of
`src/src/types/agent.ts`: an optional reasoning object (each of whose fields
is optional), a required array of actions validated by `ActionSchema`, and an
optional memory-updates object with optional string-array fields. -/
def validateAgentOutput (zc : ZodStringChecks) (j : Json) : Option AgentOutput :=
  match j with
  | .obj fields => do
    let actions ←
      match getField fields "actions" with
      | some (.arr items) => items.mapM (validateAction zc)
      | _ => none
    let reasoning ←
      match getField fields "reasoning" with
      | none => some none
      | some (.obj rf) => do
        let highestPriority ← optStr rf "highestPriority"
        let deferredItems ← optStrList rf "deferredItems"
        let budgetAssessment ← optStr rf "budgetAssessment"
        let observations ← optStr rf "observations"
        pure (some ({ highestPriority := highestPriority
                      deferredItems := deferredItems
                      budgetAssessment := budgetAssessment
                      observations := observations } : ReasoningM))
      | some _ => none
    let memoryUpdates ←
      match getField fields "memoryUpdates" with
      | none => some none
      | some (.obj mf) => do
        let observations ← optStrList mf "observations"
        let forget ← optStrList mf "forget"
        pure (some ({ observations := observations, forget := forget } : MemoryUpdatesM))
      | some _ => none
    pure { reasoning := reasoning, actions := actions, memoryUpdates := memoryUpdates }
  | _ => none

/-- Strip the optional literal `json` tag that a fenced block may carry
directly after the opening fence. -/
def dropLeadingJsonTag (block : String) : String :=
  if jsStartsWith block "json" then block.drop 4 else block

/-- The fenced-code-block extraction regex of `parseAgentOutput`: the first
segment delimited by a pair of triple-backtick fences, with a leading `json`
tag and surrounding whitespace removed. -/
def extractFenced (raw : String) : Option String :=
  match raw.splitOn "```" with
  | _ :: block :: _ :: _ => some (dropLeadingJsonTag block).trim
  | _ => none

/-- The greedy object regex of `parseAgentOutput`: the substring from the
first open brace to the last close brace, if both exist in that order. -/
def braceSpan (raw : String) : Option String :=
  let t := raw.toList.dropWhile (fun c => c ≠ braceOpenChar)
  let u := (t.reverse.dropWhile (fun c => c ≠ braceCloseChar)).reverse
  match u with
  | [] => none
  | _ :: _ => some (String.mk u)

/-- The candidate-JSON extraction of `parseAgentOutput`: prefer a fenced code
block; if the candidate does not start with an open brace, fall back to the
brace-to-brace span of the raw response. -/
def extractJsonStr (raw : String) : String :=
  let jsonStr :=
    match extractFenced raw with
    | some s => s
    | none => raw
  if jsStartsWith jsonStr braceOpenStr then jsonStr
  else
    match braceSpan raw with
    | some s => s
    | none => jsonStr

/-- The fallback Decision returned when Zod validation rejects the parsed
object. -/
def fallbackSchemaFailure (errMsg : String) : AgentOutput :=
  { reasoning := some { observations := some ("Failed to parse agent output: " ++ errMsg) }
    actions := [.no_action "Failed to parse LLM response"]
    memoryUpdates := none }

/-- The fallback Decision returned when `JSON.parse` throws. -/
def fallbackJsonFailure : AgentOutput :=
  { reasoning := some { observations := some "Failed to parse JSON from LLM response" }
    actions := [.no_action "Failed to parse LLM response as JSON"]
    memoryUpdates := none }

/-- `parseAgentOutput` from `services/llm.ts`. `jsonParse` abstracts the host
`JSON.parse` (`none` models a thrown syntax error) and `zodErrorMessage`
abstracts Zod error rendering; both are host-runtime facilities, not
repository code. -/
def parseAgentOutput (jsonParse : String → Option Json)
    (zodErrorMessage : Json → String) (zc : ZodStringChecks) (raw : String) :
    AgentOutput :=
  let jsonStr := extractJsonStr raw
  match jsonParse jsonStr with
  | none => fallbackJsonFailure
  | some parsed =>
    match validateAgentOutput zc parsed with
    | none => fallbackSchemaFailure (zodErrorMessage parsed)
    | some out => out

/-! ## Persona state, upsert semantics, rollover -/

/-- The `notes` JSON column as the engine reads it (`state.notes || {}`). -/
structure NotesM where
  observations : List String
  lastUpdated : Option String
  deriving Repr, DecidableEq

/-- The `agent_state` row fields the tick engine reads and writes. Timestamps
are milliseconds; `budgetResetDate` is the calendar-day string of
`budget_reset_at`. -/
structure AgentStateM where
  lastTickAtMs : Option Int
  lastTickId : Option String
  budgetRemaining : Int
  budgetResetDate : String
  notes : NotesM
  isActive : Bool
  deriving Repr, DecidableEq

/-- The `updates` argument of `upsertAgentState`. A `none` field models a JS
`undefined` value, which `JSON.stringify` drops from the upsert payload. -/
structure UpsertUpdates where
  lastTickAtMs : Option Int := none
  lastTickId : Option String := none
  budgetRemaining : Option Int := none
  notes : Option NotesM := none
  isActive : Option Bool := none

/-- Schema default for `budget_remaining` (`int default 100`). -/
def dbDefaultBudget : Int := 100

/-- `upsertAgentState` from the supabase service, combined with the PostgREST
upsert semantics: on conflict only payload columns are overwritten; on a fresh
insert, absent columns take the schema defaults (`budget_remaining` 100,
`budget_reset_at` today, `notes` empty, `is_active` true). The payload never
contains `budget_reset_at`, and always contains `is_active`
(`updates?.isActive ?? true`). -/
def applyUpsert (today : String) (row : Option AgentStateM) (u : UpsertUpdates) :
    AgentStateM :=
  match row with
  | some s =>
    { lastTickAtMs := match u.lastTickAtMs with
        | some v => some v
        | none => s.lastTickAtMs
      lastTickId := match u.lastTickId with
        | some v => some v
        | none => s.lastTickId
      budgetRemaining := u.budgetRemaining.getD s.budgetRemaining
      budgetResetDate := s.budgetResetDate
      notes := u.notes.getD s.notes
      isActive := u.isActive.getD true }
  | none =>
    { lastTickAtMs := u.lastTickAtMs
      lastTickId := u.lastTickId
      budgetRemaining := u.budgetRemaining.getD dbDefaultBudget
      budgetResetDate := today
      notes := u.notes.getD { observations := [], lastUpdated := none }
      isActive := u.isActive.getD true }

/-! ## Configuration (`config/index.ts`) -/

/-- The environment configuration fields the gate consumes. -/
structure Config where
  disabledAgents : List String
  leadershipAgents : List String
  externalAgents : List String
  tickIntervalMinutes : Nat
  leadershipTickIntervalMinutes : Nat
  externalTickIntervalMinutes : Nat
  dailyBudget : Int

/-- `getTickIntervalMinutes` from `config/index.ts`. -/
def getTickIntervalMinutes (cfg : Config) (agentId : String) : Nat :=
  if cfg.leadershipAgents.contains agentId then cfg.leadershipTickIntervalMinutes
  else if cfg.externalAgents.contains agentId then cfg.externalTickIntervalMinutes
  else cfg.tickIntervalMinutes

/-- The budget-rollover check from `agent-tick.ts` (lines 117-125): if the
stored reset date is not today, upsert `budgetRemaining := ENV.dailyBudget`.
The upsert payload does not include `budget_reset_at`, so the stored reset
date is left untouched. -/
def rolloverBudget (cfg : Config) (today : String) (s : AgentStateM) : AgentStateM :=
  if s.budgetResetDate ≠ today then
    applyUpsert today (some s) { budgetRemaining := some cfg.dailyBudget }
  else s

/-! ## Memory merge (`agent-tick.ts` lines 256-280) -/

/-- The merge of new observations into existing ones: drop existing entries
exactly contained in the forget set or case-insensitively equal to a new
entry, prepend the new entries, keep the first 20. -/
def mergeObservations (existingObs newObs forget : List String) : List String :=
  let filteredObs := existingObs.filter (fun obs =>
    !(forget.contains obs) && !(newObs.any (fun n => jsToLower n == jsToLower obs)))
  (newObs ++ filteredObs).take 20

/-- The notes update of step 5: untouched when the oracle proposed no memory
updates, otherwise the merged observations with a fresh `lastUpdated` stamp. -/
def updateNotes (currentNotes : NotesM) (memoryUpdates : Option MemoryUpdatesM)
    (nowIso : String) : NotesM :=
  match memoryUpdates with
  | none => currentNotes
  | some mu =>
    { observations := mergeObservations currentNotes.observations
        (mu.observations.getD []) (mu.forget.getD [])
      lastUpdated := some nowIso }

/-! ## Gate evaluation and the tick orchestrator -/

/-- The closed set of skip reasons. -/
inductive SkipReason
  | disabled
  | outsideBusinessHours
  | inactive
  | intervalNotReached
  | budgetExhausted
  deriving Repr, DecidableEq

/-- The durable steps the tick runs, in order, as trace events. -/
inductive StepEv
  | getState
  | initState
  | createTick
  | resetBudget
  | updateTickSkipped
  | gatherContext
  | updateTickContext
  | llmDecision
  | updateTickLlm
  | executeStep (i : Nat)
  | updateState
  | completeTick
  deriving Repr, DecidableEq

/-- Inputs of one tick that come from the trigger event, the wall clock and
the store. `tickId` is the id `createTick` would allocate. -/
structure TickInput where
  agentId : String
  force : Bool
  isBusinessHoursNow : Bool
  nowMs : Int
  today : String
  tickId : String
  state : Option AgentStateM

/-- Result of the gating phase: either a skip reason or permission to proceed
with the post-rollover state. -/
inductive GateOutcome
  | skip (r : SkipReason)
  | proceed (s1 : AgentStateM)
  deriving Repr, DecidableEq

/-- Observable outcome of the gating phase (`agent-tick.ts` lines 74-137). -/
structure GateEval where
  outcome : GateOutcome
  stateRead : Option AgentStateM
  tickCreated : Bool
  steps : List StepEv
  deriving Repr, DecidableEq

/-- The state the gate works from: the stored row, or the row lazily
initialised with the configured daily budget. -/
def gateState0 (cfg : Config) (inp : TickInput) : AgentStateM :=
  match inp.state with
  | some s => s
  | none => applyUpsert inp.today none { budgetRemaining := some cfg.dailyBudget }

/-- The interval gate condition: less than the persona-class minimum interval
(in minutes, via `getTickIntervalMinutes`) has elapsed since `lastTickAt`. -/
def intervalNotElapsed (cfg : Config) (inp : TickInput) (s0 : AgentStateM) : Bool :=
  match s0.lastTickAtMs with
  | some t =>
    decide ((inp.nowMs - t) < (getTickIntervalMinutes cfg inp.agentId : Int) * 60000)
  | none => false

/-- The state fetch / lazy initialisation steps of the trace. -/
def initStepsOf (inp : TickInput) : List StepEv :=
  match inp.state with
  | some _ => [.getState]
  | none => [.getState, .initState]

/-- The optional budget-rollover step of the trace. -/
def rollStepsOf (cfg : Config) (inp : TickInput) : List StepEv :=
  if (gateState0 cfg inp).budgetResetDate ≠ inp.today then [.resetBudget] else []

/-- The gating phase, translated check by check from `agent-tick.ts`:
disabled list, business hours (unless forced), state fetch/initialisation,
`is_active`, minimum tick interval (unless forced), tick-record creation,
budget rollover, budget exhaustion. The interval comparison
`(now - lastTickAt) / 60000 < tickInterval` is modelled exactly over the
integers. -/
def gateEval (cfg : Config) (inp : TickInput) : GateEval :=
  if cfg.disabledAgents.contains inp.agentId then
    { outcome := .skip .disabled, stateRead := none, tickCreated := false, steps := [] }
  else if !inp.force && !inp.isBusinessHoursNow then
    { outcome := .skip .outsideBusinessHours, stateRead := none,
      tickCreated := false, steps := [] }
  else if !(gateState0 cfg inp).isActive then
    { outcome := .skip .inactive, stateRead := some (gateState0 cfg inp)
      tickCreated := false, steps := initStepsOf inp }
  else if !inp.force && intervalNotElapsed cfg inp (gateState0 cfg inp) then
    { outcome := .skip .intervalNotReached, stateRead := some (gateState0 cfg inp)
      tickCreated := false, steps := initStepsOf inp }
  else if (rolloverBudget cfg inp.today (gateState0 cfg inp)).budgetRemaining ≤ 0 then
    { outcome := .skip .budgetExhausted, stateRead := some (gateState0 cfg inp)
      tickCreated := true
      steps := initStepsOf inp ++ [StepEv.createTick] ++ rollStepsOf cfg inp
        ++ [StepEv.updateTickSkipped] }
  else
    { outcome := .proceed (rolloverBudget cfg inp.today (gateState0 cfg inp))
      stateRead := some (gateState0 cfg inp), tickCreated := true
      steps := initStepsOf inp ++ [StepEv.createTick] ++ rollStepsOf cfg inp }

/-- The skip reason the implemented gate returns, if any. -/
def gateSkipReasonCode (cfg : Config) (inp : TickInput) : Option SkipReason :=
  match (gateEval cfg inp).outcome with
  | .skip r => some r
  | .proceed _ => none

/-- The gate order as claim C5 states it: disabled, outside-active-window,
interval-not-elapsed, inactive, budget-exhausted, with only the disabled and
inactive checks applying when `force` is set. Written from the claim text for
comparison with `gateSkipReasonCode`. -/
def gateSkipReasonClaimed (cfg : Config) (inp : TickInput) : Option SkipReason :=
  let s0 := gateState0 cfg inp
  if cfg.disabledAgents.contains inp.agentId then some .disabled
  else if inp.force then
    if !s0.isActive then some .inactive else none
  else if !inp.isBusinessHoursNow then some .outsideBusinessHours
  else if intervalNotElapsed cfg inp s0 then some .intervalNotReached
  else if !s0.isActive then some .inactive
  else if (rolloverBudget cfg inp.today s0).budgetRemaining ≤ 0 then some .budgetExhausted
  else none

/-- The amended gate order: disabled, outside-active-window, inactive,
interval-not-elapsed, budget-exhausted; `force` bypasses only the
active-window and interval gates, while disabled, inactive and
budget-exhausted still apply. Written from the amended claim text for
comparison with `gateSkipReasonCode`. -/
def gateSkipReasonAmended (cfg : Config) (inp : TickInput) : Option SkipReason :=
  let s0 := gateState0 cfg inp
  if cfg.disabledAgents.contains inp.agentId then some .disabled
  else if !inp.force && !inp.isBusinessHoursNow then some .outsideBusinessHours
  else if !s0.isActive then some .inactive
  else if !inp.force && intervalNotElapsed cfg inp s0 then some .intervalNotReached
  else if (rolloverBudget cfg inp.today s0).budgetRemaining ≤ 0 then some .budgetExhausted
  else none

/-- Results-and-budget accumulator of the action loop (step 4). -/
structure ActionsPhase where
  outcomes : List ExecOutcome
  budgetUsed : Nat
  deriving Repr, DecidableEq

/-- The action loop of step 4: execute each proposed action in order (the
environment at index `i` describes the collaborators during action `i`),
accruing the fixed cost of every action whose result succeeded. -/
def runActionsFrom (env : Nat → Env) : Nat → List AgentAction → ActionsPhase
  | _, [] => { outcomes := [], budgetUsed := 0 }
  | i, a :: rest =>
    let o := executeAction (env i) a
    let tail := runActionsFrom env (i + 1) rest
    { outcomes := o :: tail.outcomes
      budgetUsed := (if o.result.success then getActionCost a else 0) + tail.budgetUsed }

/-- Terminal status of one tick attempt. -/
inductive TickStatus
  | skippedNoRecord (r : SkipReason)
  | skippedBudget
  | completed
  deriving Repr, DecidableEq

/-- Everything observable from one full tick. -/
structure TickRun where
  status : TickStatus
  stateRead : Option AgentStateM
  stateAfterRollover : Option AgentStateM
  outcomes : List ExecOutcome
  budgetUsed : Nat
  writtenState : Option AgentStateM
  steps : List StepEv
  deriving Repr, DecidableEq

/-- The full tick (`agentTickFunction`): gate, context gathering, oracle
decision, action loop, state reconciliation, tick completion. `llmOutput` is
the (already parsed) oracle decision and `nowIso` the timestamp string used
for the `lastUpdated` memory stamp. -/
def agentTick (cfg : Config) (inp : TickInput) (env : Nat → Env)
    (llmOutput : AgentOutput) (nowIso : String) : TickRun :=
  let g := gateEval cfg inp
  match g.outcome with
  | .skip .budgetExhausted =>
    { status := .skippedBudget, stateRead := g.stateRead, stateAfterRollover := none,
      outcomes := [], budgetUsed := 0, writtenState := none, steps := g.steps }
  | .skip r =>
    { status := .skippedNoRecord r, stateRead := g.stateRead, stateAfterRollover := none,
      outcomes := [], budgetUsed := 0, writtenState := none, steps := g.steps }
  | .proceed s1 =>
    let ap := runActionsFrom env 0 llmOutput.actions
    let newBudget : Int := max 0 (s1.budgetRemaining - (ap.budgetUsed : Int))
    let updatedNotes := updateNotes s1.notes llmOutput.memoryUpdates nowIso
    let w := applyUpsert inp.today (some s1)
      { lastTickAtMs := some inp.nowMs
        lastTickId := some inp.tickId
        budgetRemaining := some newBudget
        notes := some updatedNotes }
    { status := .completed
      stateRead := g.stateRead
      stateAfterRollover := some s1
      outcomes := ap.outcomes
      budgetUsed := ap.budgetUsed
      writtenState := some w
      steps := g.steps ++
        [StepEv.gatherContext, StepEv.updateTickContext,
         StepEv.llmDecision, StepEv.updateTickLlm] ++
        (List.range llmOutput.actions.length).map StepEv.executeStep ++
        [StepEv.updateState, StepEv.completeTick] }

/-! ## Concrete sample data used by witnesses and counterexamples -/

/-- A benign collaborator environment: no dry run, all dispatches succeed,
channel names resolve to nothing, Precedent configured. -/
def sampleEnv : Env :=
  { dryRun := false
    resolveChannel := fun _ => none
    emailDispatch := .ok { messageId := "m1", threadId := "t1" }
    slackDispatch := .ok { ts := "1.0", channel := "C1" }
    dmDispatch := .ok { ts := "1.1", channel := "D1" }
    precedentEnabled := true
    precedentUserId := some "U1" }

/-- A sample configuration mirroring the defaults of `config/index.ts`. -/
def cfg0 : Config :=
  { disabledAgents := []
    leadershipAgents := ["alex", "morgan", "jordan", "sam"]
    externalAgents := ["chance-advisor", "sarah-investor", "karen-customer",
                       "robert-legal", "elena-scribes"]
    tickIntervalMinutes := 30
    leadershipTickIntervalMinutes := 10
    externalTickIntervalMinutes := 60
    dailyBudget := 250 }

/-- An active persona state with 8 budget left and today's reset date. -/
def state8 : AgentStateM :=
  { lastTickAtMs := some 0, lastTickId := none, budgetRemaining := 8
    budgetResetDate := "2026-10-12"
    notes := { observations := [], lastUpdated := none }
    isActive := true }

/-- A tick input for `state8`, two hours after the last tick. -/
def inp8 : TickInput :=
  { agentId := "taylor", force := false, isBusinessHoursNow := true
    nowMs := 7200000, today := "2026-10-12", tickId := "tick-7"
    state := some state8 }

/-- An oracle decision proposing one internal send-email and one no-op. -/
def llmTwoActions : AgentOutput :=
  { reasoning := none
    actions := [.send_email ["alex@humansent.co"] [] "s" "b" none none,
                .no_action "done"]
    memoryUpdates := none }

/-- An inactive persona state whose minimum tick interval has not elapsed. -/
def stateInactiveRecent : AgentStateM :=
  { lastTickAtMs := some 7000000, lastTickId := none, budgetRemaining := 100
    budgetResetDate := "2026-10-12"
    notes := { observations := [], lastUpdated := none }
    isActive := false }

/-- A non-forced tick input for `stateInactiveRecent`, five minutes after the
last tick. -/
def inpInactiveRecent : TickInput :=
  { agentId := "taylor", force := false, isBusinessHoursNow := true
    nowMs := 7300000, today := "2026-10-12", tickId := "tick-8"
    state := some stateInactiveRecent }

/-- An active state with exhausted budget and today's reset date. -/
def stateNoBudget : AgentStateM :=
  { lastTickAtMs := some 0, lastTickId := none, budgetRemaining := 0
    budgetResetDate := "2026-10-12"
    notes := { observations := [], lastUpdated := none }
    isActive := true }

/-- A forced tick input for `stateNoBudget`. -/
def inpForcedNoBudget : TickInput :=
  { agentId := "taylor", force := true, isBusinessHoursNow := false
    nowMs := 7200000, today := "2026-10-12", tickId := "tick-9"
    state := some stateNoBudget }

/-- A state whose budget reset date is stale (yesterday) with partial budget
spent. -/
def stateStaleReset : AgentStateM :=
  { lastTickAtMs := some 0, lastTickId := none, budgetRemaining := 40
    budgetResetDate := "2026-10-11"
    notes := { observations := [], lastUpdated := none }
    isActive := true }

/-! ## General lemmas about action execution -/

/-- Every branch of `executeAction` returns the attempted action in its
result. -/
theorem executeAction_action (env : Env) (a : AgentAction) :
    (executeAction env a).result.action = a := by
  cases a <;> simp only [executeAction] <;> (repeat' split) <;> simp [catchOutcome]

/-- Every branch of `executeAction` logs exactly one `ActionResult` row. -/
theorem executeAction_logs_length (env : Env) (a : AgentAction) :
    (executeAction env a).logs.length = 1 := by
  cases a <;> simp only [executeAction] <;> (repeat' split) <;> simp [catchOutcome]

/-- The action loop yields one outcome per attempted action. -/
theorem runActionsFrom_length (env : Nat → Env) (i : Nat) (as : List AgentAction) :
    (runActionsFrom env i as).outcomes.length = as.length := by
  induction as generalizing i with
  | nil => simp [runActionsFrom]
  | cons a rest ih => simp [runActionsFrom, ih]

/-- Every outcome of the action loop carries exactly one log row. -/
theorem runActionsFrom_logs_length (env : Nat → Env) (i : Nat) (as : List AgentAction) :
    ∀ o ∈ (runActionsFrom env i as).outcomes, o.logs.length = 1 := by
  induction as generalizing i with
  | nil => intro o ho; simp [runActionsFrom] at ho
  | cons a rest ih =>
    intro o ho
    simp only [runActionsFrom, List.mem_cons] at ho
    rcases ho with h | h
    · rw [h]; exact executeAction_logs_length (env i) a
    · exact ih (i + 1) o h

/-- Outcomes at positions other than `k` do not depend on the collaborator
behaviour at position `k`. -/
theorem runActionsFrom_congr_except (env env2 : Nat → Env) (k : Nat)
    (hagree : ∀ j, j ≠ k → env j = env2 j) :
    ∀ (as : List AgentAction) (i j : Nat), i + j ≠ k →
      (runActionsFrom env i as).outcomes.get? j
        = (runActionsFrom env2 i as).outcomes.get? j := by
  intro as
  induction as with
  | nil => intro i j _; simp [runActionsFrom]
  | cons a rest ih =>
    intro i j hj
    cases j with
    | zero =>
      simp only [runActionsFrom, List.get?]
      rw [hagree i (by omega)]
    | succ j2 =>
      simp only [runActionsFrom, List.get?]
      exact ih (i + 1) j2 (by omega)

/-- The accrued budget of the action loop is the sum of the fixed costs of
exactly the successful outcomes. -/
theorem runActionsFrom_budgetUsed (env : Nat → Env) (i : Nat) (as : List AgentAction) :
    (runActionsFrom env i as).budgetUsed
      = (((runActionsFrom env i as).outcomes.filter (fun o => o.result.success)).map
          (fun o => getActionCost o.result.action)).sum := by
  induction as generalizing i with
  | nil => simp [runActionsFrom]
  | cons a rest ih =>
    simp only [runActionsFrom]
    cases hsucc : (executeAction (env i) a).result.success
    · simp [List.filter_cons, hsucc, ih]
    · simp [List.filter_cons, hsucc, ih, executeAction_action]

/-! ## Claim C1: external-recipient email hard block -/

/-- Claim C1: a send-email action whose recipient set (to plus cc) contains at
least one address outside the `@humansent.co` suffix is never dispatched,
however many valid recipients accompany it; exactly one ActionResult is logged
with `success = false` and the security-tagged message naming the blocked
addresses, and the loop still executes the remaining actions. -/
theorem c1_send_email_external_hard_block (env : Env)
    (toAddrs cc : List String) (subject body : String)
    (convId inReplyTo : Option String)
    (hext : ∃ r ∈ toAddrs ++ cc, jsEndsWith r "@humansent.co" = false) :
    executeAction env (.send_email toAddrs cc subject body convId inReplyTo) =
      { result := { action := .send_email toAddrs cc subject body convId inReplyTo
                    success := false
                    error := some (blockedEmailMessage
                      ((toAddrs ++ cc).filter (fun e => !(jsEndsWith e "@humansent.co")))) }
        logs := [{ actionType := "send_email", success := false
                   errorMessage := some (blockedEmailMessage
                     ((toAddrs ++ cc).filter (fun e => !(jsEndsWith e "@humansent.co"))))
                   reasoning := none }]
        dispatched := [] }
    ∧ ∀ (envF : Nat → Env) (i : Nat) (rest : List AgentAction),
        (runActionsFrom envF i
            (AgentAction.send_email toAddrs cc subject body convId inReplyTo :: rest)).outcomes
          = executeAction (envF i) (.send_email toAddrs cc subject body convId inReplyTo)
              :: (runActionsFrom envF (i + 1) rest).outcomes := by
  obtain ⟨r, hr, hre⟩ := hext
  have hm : r ∈ (toAddrs ++ cc).filter (fun e => !(jsEndsWith e "@humansent.co")) :=
    List.mem_filter.mpr ⟨hr, by simp [hre]⟩
  have hlen : 0 < ((toAddrs ++ cc).filter (fun e => !(jsEndsWith e "@humansent.co"))).length :=
    List.length_pos.mpr (List.ne_nil_of_mem hm)
  constructor
  · simp only [executeAction, if_pos hlen]
  · intro envF i rest
    simp [runActionsFrom]

/-- Concrete witness for C1: one off-domain address among valid ones blocks
the whole send. -/
theorem c1_witness :
    (∃ r ∈ ["alex@humansent.co", "eve@example.com"] ++ ["morgan@humansent.co"],
       jsEndsWith r "@humansent.co" = false)
    ∧ (executeAction
        { dryRun := false, resolveChannel := fun _ => none
          emailDispatch := .ok { messageId := "m1", threadId := "t1" }
          slackDispatch := .ok { ts := "1.0", channel := "C1" }
          dmDispatch := .ok { ts := "1.1", channel := "D1" }
          precedentEnabled := true, precedentUserId := some "U1" }
        (.send_email ["alex@humansent.co", "eve@example.com"] ["morgan@humansent.co"]
          "subj" "body" none none) =
      { result := { action := .send_email ["alex@humansent.co", "eve@example.com"]
                      ["morgan@humansent.co"] "subj" "body" none none
                    success := false
                    error := some (blockedEmailMessage
                      ((["alex@humansent.co", "eve@example.com"] ++ ["morgan@humansent.co"]).filter
                        (fun e => !(jsEndsWith e "@humansent.co")))) }
        logs := [{ actionType := "send_email", success := false
                   errorMessage := some (blockedEmailMessage
                     ((["alex@humansent.co", "eve@example.com"] ++ ["morgan@humansent.co"]).filter
                       (fun e => !(jsEndsWith e "@humansent.co"))))
                   reasoning := none }]
        dispatched := [] })
      ∧ ∀ (envF : Nat → Env) (i : Nat) (rest : List AgentAction),
          (runActionsFrom envF i
              (AgentAction.send_email ["alex@humansent.co", "eve@example.com"]
                ["morgan@humansent.co"] "subj" "body" none none :: rest)).outcomes
            = executeAction (envF i) (.send_email ["alex@humansent.co", "eve@example.com"]
                ["morgan@humansent.co"] "subj" "body" none none)
                :: (runActionsFrom envF (i + 1) rest).outcomes :=
  ⟨by decide,
   c1_send_email_external_hard_block _ _ _ _ _ _ _ (by decide)⟩

/-! ## Claim C2: budget reconciliation -/

/-- Claim C2: for a cycle that passes the gate with post-rollover state `s1`,
the written budget equals `max(0, before - Σ cost of successful actions)`,
is never negative, and only success-flagged outcomes contribute cost. -/
theorem c2_budget_reconciliation (cfg : Config) (inp : TickInput) (env : Nat → Env)
    (llmOutput : AgentOutput) (nowIso : String) (s1 : AgentStateM)
    (hp : (gateEval cfg inp).outcome = .proceed s1) :
    ∃ w, (agentTick cfg inp env llmOutput nowIso).writtenState = some w
      ∧ w.budgetRemaining
          = max 0 (s1.budgetRemaining -
              (((((agentTick cfg inp env llmOutput nowIso).outcomes.filter
                    (fun o => o.result.success)).map
                  (fun o => getActionCost o.result.action)).sum : Nat) : Int))
      ∧ 0 ≤ w.budgetRemaining
      ∧ (agentTick cfg inp env llmOutput nowIso).budgetUsed
          = (((agentTick cfg inp env llmOutput nowIso).outcomes.filter
                (fun o => o.result.success)).map
              (fun o => getActionCost o.result.action)).sum := by
  simp only [agentTick, hp]
  refine ⟨_, rfl, ?_, ?_, ?_⟩
  · simp [applyUpsert, runActionsFrom_budgetUsed]
  · simp [applyUpsert]
  · simp [runActionsFrom_budgetUsed]

/-- Concrete witness for C2: a persona with budget 8 runs a successful
send-email (cost 10) and a no-op (cost 0). -/
theorem c2_witness :
    (gateEval cfg0 inp8).outcome = .proceed state8
    ∧ ∃ w, (agentTick cfg0 inp8 (fun _ => sampleEnv) llmTwoActions
              "2026-10-12T10:00:00Z").writtenState = some w
        ∧ w.budgetRemaining
            = max 0 (state8.budgetRemaining -
                (((((agentTick cfg0 inp8 (fun _ => sampleEnv) llmTwoActions
                      "2026-10-12T10:00:00Z").outcomes.filter
                        (fun o => o.result.success)).map
                      (fun o => getActionCost o.result.action)).sum : Nat) : Int))
        ∧ 0 ≤ w.budgetRemaining
        ∧ (agentTick cfg0 inp8 (fun _ => sampleEnv) llmTwoActions
              "2026-10-12T10:00:00Z").budgetUsed
            = (((agentTick cfg0 inp8 (fun _ => sampleEnv) llmTwoActions
                  "2026-10-12T10:00:00Z").outcomes.filter
                  (fun o => o.result.success)).map
                (fun o => getActionCost o.result.action)).sum :=
  ⟨by decide,
   c2_budget_reconciliation cfg0 inp8 (fun _ => sampleEnv) llmTwoActions
     "2026-10-12T10:00:00Z" state8 (by decide)⟩

/-! ## Claim C4: per-action failure isolation -/

/-- Claim C4: every attempted action yields exactly one outcome with exactly
one logged ActionResult; a thrown dispatch exception is caught per action and
becomes a failed ActionResult carrying the exception message (shown for the
email, channel-post and DM dispatch points and for channel resolution); and
the outcomes of all positions other than `k` are unchanged when only the
collaborator behaviour at position `k` changes. -/
theorem c4_action_failure_isolated (env env2 : Nat → Env)
    (as : List AgentAction) (k : Nat)
    (hagree : ∀ j, j ≠ k → env j = env2 j) :
    (runActionsFrom env 0 as).outcomes.length = as.length
    ∧ (∀ o ∈ (runActionsFrom env 0 as).outcomes, o.logs.length = 1)
    ∧ (∀ j, j ≠ k →
        (runActionsFrom env 0 as).outcomes.get? j
          = (runActionsFrom env2 0 as).outcomes.get? j)
    ∧ (∀ (e : Env) (toAddrs cc : List String) (subject body : String)
         (ci ir : Option String) (msg : String),
        (∀ r ∈ toAddrs ++ cc, jsEndsWith r "@humansent.co" = true) →
        e.dryRun = false → e.emailDispatch = .error msg →
        executeAction e (.send_email toAddrs cc subject body ci ir)
          = catchOutcome (.send_email toAddrs cc subject body ci ir) msg)
    ∧ (∀ (e : Env) (channel text : String) (ts : Option String) (msg : String),
        jsStartsWith channel "#" = false → mentionsPrecedent text = false →
        e.dryRun = false → e.slackDispatch = .error msg →
        executeAction e (.send_slack_message channel text ts)
          = catchOutcome (.send_slack_message channel text ts) msg)
    ∧ (∀ (e : Env) (channel text : String) (ts : Option String),
        jsStartsWith channel "#" = true → e.resolveChannel channel = none →
        executeAction e (.send_slack_message channel text ts)
          = catchOutcome (.send_slack_message channel text ts)
              ("Channel not found: " ++ channel))
    ∧ (∀ (e : Env) (intent : String) (q xc ts : Option String)
         (uid msg : String),
        e.precedentEnabled = true → e.precedentUserId = some uid →
        e.dryRun = false → e.dmDispatch = .error msg →
        executeAction e (.use_precedent intent q xc ts)
          = catchOutcome (.use_precedent intent q xc ts) msg) := by
  refine ⟨runActionsFrom_length env 0 as, runActionsFrom_logs_length env 0 as,
    ?_, ?_, ?_, ?_, ?_⟩
  · intro j hj
    exact runActionsFrom_congr_except env env2 k hagree as 0 j (by omega)
  · intro e toAddrs cc subject body ci ir msg hall hdr hdisp
    have hfe : (toAddrs ++ cc).filter (fun e => !(jsEndsWith e "@humansent.co")) = [] := by
      rw [List.filter_eq_nil_iff]
      intro r hr
      simp [hall r hr]
    simp [executeAction, hfe, hdr, hdisp]
  · intro e channel text ts msg hch hmp hdr hdisp
    simp [executeAction, hch, hmp, hdr, hdisp]
  · intro e channel text ts hch hres
    simp [executeAction, hch, hres]
  · intro e intent q xc ts uid msg hpe hpu hdr hdisp
    cases q with
    | none => simp [executeAction, hpe, hpu, hdr, hdisp]
    | some q2 => simp [executeAction, hpe, hpu, hdr, hdisp]

/-- Concrete witness for C4: the environment at position 0 throws on email
dispatch; position 1 still executes and succeeds. -/
theorem c4_witness :
    (∀ j, j ≠ 0 → (fun i => if i = 0 then
        { sampleEnv with emailDispatch := .error "smtp down" } else sampleEnv) j
      = (fun _ => sampleEnv) j)
    ∧ ((runActionsFrom (fun i => if i = 0 then
          { sampleEnv with emailDispatch := .error "smtp down" } else sampleEnv) 0
          [.send_email ["alex@humansent.co"] [] "s" "b" none none,
           .no_action "done"]).outcomes.length = 2
      ∧ (∀ o ∈ (runActionsFrom (fun i => if i = 0 then
            { sampleEnv with emailDispatch := .error "smtp down" } else sampleEnv) 0
            [.send_email ["alex@humansent.co"] [] "s" "b" none none,
             .no_action "done"]).outcomes, o.logs.length = 1)
      ∧ (∀ j, j ≠ 0 →
          (runActionsFrom (fun i => if i = 0 then
              { sampleEnv with emailDispatch := .error "smtp down" } else sampleEnv) 0
              [.send_email ["alex@humansent.co"] [] "s" "b" none none,
               .no_action "done"]).outcomes.get? j
            = (runActionsFrom (fun _ => sampleEnv) 0
                [.send_email ["alex@humansent.co"] [] "s" "b" none none,
                 .no_action "done"]).outcomes.get? j)
      ∧ (∀ (e : Env) (toAddrs cc : List String) (subject body : String)
           (ci ir : Option String) (msg : String),
          (∀ r ∈ toAddrs ++ cc, jsEndsWith r "@humansent.co" = true) →
          e.dryRun = false → e.emailDispatch = .error msg →
          executeAction e (.send_email toAddrs cc subject body ci ir)
            = catchOutcome (.send_email toAddrs cc subject body ci ir) msg)
      ∧ (∀ (e : Env) (channel text : String) (ts : Option String) (msg : String),
          jsStartsWith channel "#" = false → mentionsPrecedent text = false →
          e.dryRun = false → e.slackDispatch = .error msg →
          executeAction e (.send_slack_message channel text ts)
            = catchOutcome (.send_slack_message channel text ts) msg)
      ∧ (∀ (e : Env) (channel text : String) (ts : Option String),
          jsStartsWith channel "#" = true → e.resolveChannel channel = none →
          executeAction e (.send_slack_message channel text ts)
            = catchOutcome (.send_slack_message channel text ts)
                ("Channel not found: " ++ channel))
      ∧ (∀ (e : Env) (intent : String) (q xc ts : Option String)
           (uid msg : String),
          e.precedentEnabled = true → e.precedentUserId = some uid →
          e.dryRun = false → e.dmDispatch = .error msg →
          executeAction e (.use_precedent intent q xc ts)
            = catchOutcome (.use_precedent intent q xc ts) msg)) :=
  have hagree : ∀ j, j ≠ 0 → (fun i => if i = 0 then
      { sampleEnv with emailDispatch := .error "smtp down" } else sampleEnv) j
    = (fun _ => sampleEnv) j := fun j hj => by simp [hj]
  ⟨hagree,
   c4_action_failure_isolated
     (fun i => if i = 0 then
       { sampleEnv with emailDispatch := .error "smtp down" } else sampleEnv)
     (fun _ => sampleEnv)
     [.send_email ["alex@humansent.co"] [] "s" "b" none none, .no_action "done"]
     0 hagree⟩

/-! ## Claim C3: oracle output parsing never raises -/

/-- Claim C3: for every raw oracle response and every behaviour of the host
`JSON.parse` (a thrown syntax error modelled as `none`), `parseAgentOutput`
totally returns either a schema-valid decision or one of the two safe
fallback decisions, each of whose only action is a `no_action` and whose
reasoning text reports the parse failure. -/
theorem c3_parse_fallback_safety (jsonParse : String → Option Json)
    (zodErrorMessage : Json → String) (zc : ZodStringChecks) (raw : String) :
    ((∃ j, jsonParse (extractJsonStr raw) = some j
        ∧ validateAgentOutput zc j
            = some (parseAgentOutput jsonParse zodErrorMessage zc raw))
      ∨ (∃ j, jsonParse (extractJsonStr raw) = some j
          ∧ validateAgentOutput zc j = none
          ∧ parseAgentOutput jsonParse zodErrorMessage zc raw
              = fallbackSchemaFailure (zodErrorMessage j))
      ∨ (jsonParse (extractJsonStr raw) = none
          ∧ parseAgentOutput jsonParse zodErrorMessage zc raw = fallbackJsonFailure))
    ∧ (∀ m, (fallbackSchemaFailure m).actions
          = [.no_action "Failed to parse LLM response"]
        ∧ (fallbackSchemaFailure m).reasoning
          = some { observations := some ("Failed to parse agent output: " ++ m) })
    ∧ fallbackJsonFailure.actions = [.no_action "Failed to parse LLM response as JSON"]
    ∧ fallbackJsonFailure.reasoning
        = some { observations := some "Failed to parse JSON from LLM response" } := by
  refine ⟨?_, fun m => ⟨rfl, rfl⟩, rfl, rfl⟩
  cases hp : jsonParse (extractJsonStr raw) with
  | none =>
    refine Or.inr (Or.inr ⟨rfl, ?_⟩)
    simp [parseAgentOutput, hp]
  | some j =>
    cases hv : validateAgentOutput zc j with
    | none =>
      refine Or.inr (Or.inl ⟨j, rfl, hv, ?_⟩)
      simp [parseAgentOutput, hp, hv]
    | some out =>
      refine Or.inl ⟨j, rfl, ?_⟩
      simp [parseAgentOutput, hp, hv]

/-! ## Claim C5: gate check order -/

/-- Claim C5 counterexample: (a) an inactive persona whose minimum interval
has also not elapsed is skipped as inactive, not as interval-not-elapsed, so
the inactive check runs before the interval check; (b) a forced tick with
exhausted budget is still skipped as budget-exhausted, so force does not
bypass the budget gate. Both contradict the claimed order. -/
theorem c5_counterexample :
    gateSkipReasonCode cfg0 inpInactiveRecent = some .inactive
    ∧ gateSkipReasonClaimed cfg0 inpInactiveRecent = some .intervalNotReached
    ∧ gateSkipReasonCode cfg0 inpForcedNoBudget = some .budgetExhausted
    ∧ gateSkipReasonClaimed cfg0 inpForcedNoBudget = none := by
  refine ⟨?_, ?_, ?_, ?_⟩ <;> decide

/-- Claim C5 as amended: the Gate Evaluator checks, first match winning:
disabled, outside-active-window, inactive, interval-not-elapsed (via the
persona-class lookup), budget-exhausted; `force` bypasses only the
active-window and interval gates while disabled, inactive and
budget-exhausted still apply. -/
theorem c5_gate_order (cfg : Config) (inp : TickInput) :
    gateSkipReasonCode cfg inp = gateSkipReasonAmended cfg inp := by
  unfold gateSkipReasonCode gateSkipReasonAmended gateEval
  split_ifs <;> simp_all
  all_goals split_ifs <;> (try simp_all) <;> omega

/-! ## Claim C6: CycleRecord discipline on skips -/

/-- On any gate skip, the tick performs no context assembly, no oracle call,
no actions and no state write; its status is derived from the skip reason. -/
theorem agentTick_skip (cfg : Config) (inp : TickInput) (env : Nat → Env)
    (llmOutput : AgentOutput) (nowIso : String) (r : SkipReason)
    (h : (gateEval cfg inp).outcome = .skip r) :
    (agentTick cfg inp env llmOutput nowIso).steps = (gateEval cfg inp).steps
    ∧ (agentTick cfg inp env llmOutput nowIso).outcomes = []
    ∧ (agentTick cfg inp env llmOutput nowIso).writtenState = none
    ∧ (agentTick cfg inp env llmOutput nowIso).status
        = (if r = .budgetExhausted then .skippedBudget else .skippedNoRecord r) := by
  cases r <;> exact ⟨by simp only [agentTick, h], by simp only [agentTick, h],
    by simp only [agentTick, h], by simp [agentTick, h]⟩

/-- Structural characterisation of the gate: either no tick record was
created and the trace holds at most the state fetch/initialisation steps, or
the record was created and the trace is the fetch steps, then `createTick`,
then an optional budget reset, then (only in the budget-exhausted case) the
skipped-finalisation. -/
theorem gateEval_spec (cfg : Config) (inp : TickInput) :
    ∃ isteps roll,
      (isteps = [StepEv.getState] ∨ isteps = [StepEv.getState, StepEv.initState])
      ∧ (roll = ([] : List StepEv) ∨ roll = [StepEv.resetBudget])
      ∧ (((gateEval cfg inp).tickCreated = false
          ∧ ((gateEval cfg inp).steps = [] ∨ (gateEval cfg inp).steps = isteps)
          ∧ (∃ r, (gateEval cfg inp).outcome = .skip r ∧ r ≠ .budgetExhausted))
        ∨ ((gateEval cfg inp).tickCreated = true
            ∧ (((gateEval cfg inp).outcome = .skip .budgetExhausted
                ∧ (gateEval cfg inp).steps
                    = isteps ++ [StepEv.createTick] ++ roll ++ [StepEv.updateTickSkipped])
              ∨ ((∃ s1, (gateEval cfg inp).outcome = .proceed s1)
                ∧ (gateEval cfg inp).steps
                    = isteps ++ [StepEv.createTick] ++ roll)))) := by
  refine ⟨initStepsOf inp, rollStepsOf cfg inp, ?_, ?_, ?_⟩
  · unfold initStepsOf
    cases inp.state <;> simp
  · unfold rollStepsOf
    split_ifs <;> simp
  · unfold gateEval
    split_ifs
    · exact Or.inl ⟨rfl, Or.inl rfl, .disabled, rfl, by decide⟩
    · exact Or.inl ⟨rfl, Or.inl rfl, .outsideBusinessHours, rfl, by decide⟩
    · exact Or.inl ⟨rfl, Or.inr rfl, .inactive, rfl, by decide⟩
    · exact Or.inl ⟨rfl, Or.inr rfl, .intervalNotReached, rfl, by decide⟩
    · exact Or.inr ⟨rfl, Or.inl ⟨rfl, rfl⟩⟩
    · exact Or.inr ⟨rfl, Or.inr ⟨⟨_, rfl⟩, rfl⟩⟩

/-- Claim C6: a gated-out cycle creates no tick record unless the skip reason
is budget exhaustion; in the budget case the record was already created before
the budget check (`createTick` precedes the skipped-finalisation in the step
trace), the record is finalised as skipped, and no context assembly, oracle
call, action or state write happens. -/
theorem c6_skip_record_discipline (cfg : Config) (inp : TickInput) (env : Nat → Env)
    (llmOutput : AgentOutput) (nowIso : String) (r : SkipReason)
    (h : (gateEval cfg inp).outcome = .skip r) :
    (r ≠ .budgetExhausted →
      (gateEval cfg inp).tickCreated = false
      ∧ StepEv.createTick ∉ (gateEval cfg inp).steps
      ∧ StepEv.updateTickSkipped ∉ (gateEval cfg inp).steps
      ∧ (agentTick cfg inp env llmOutput nowIso).status = .skippedNoRecord r)
    ∧ (r = .budgetExhausted →
      (gateEval cfg inp).tickCreated = true
      ∧ (∃ l1 l2, (gateEval cfg inp).steps = l1 ++ StepEv.createTick :: l2
          ∧ StepEv.updateTickSkipped ∈ l2)
      ∧ (agentTick cfg inp env llmOutput nowIso).status = .skippedBudget
      ∧ (agentTick cfg inp env llmOutput nowIso).outcomes = []
      ∧ (agentTick cfg inp env llmOutput nowIso).writtenState = none
      ∧ StepEv.gatherContext ∉ (agentTick cfg inp env llmOutput nowIso).steps
      ∧ StepEv.llmDecision ∉ (agentTick cfg inp env llmOutput nowIso).steps) := by
  obtain ⟨hsteps, houtc, hws, hstat⟩ := agentTick_skip cfg inp env llmOutput nowIso r h
  obtain ⟨isteps, roll, hi, hr, hcase⟩ := gateEval_spec cfg inp
  constructor
  · intro hne
    rcases hcase with ⟨htc, hst, _, _, _⟩ | ⟨_, ⟨hb, _⟩ | ⟨⟨s1, hp⟩, _⟩⟩
    · refine ⟨htc, ?_, ?_, ?_⟩
      · rcases hst with hst | hst <;> rw [hst] <;> rcases hi with hi | hi <;> simp [hi]
      · rcases hst with hst | hst <;> rw [hst] <;> rcases hi with hi | hi <;> simp [hi]
      · rw [hstat, if_neg hne]
    · rw [h] at hb
      exact absurd (GateOutcome.skip.inj hb) hne
    · rw [h] at hp
      exact absurd hp (by simp)
  · intro hbe
    subst hbe
    rcases hcase with ⟨_, _, r2, hr2, hne2⟩ | ⟨htc, ⟨hb, hst⟩ | ⟨⟨s1, hp⟩, _⟩⟩
    · rw [h] at hr2
      exact absurd (GateOutcome.skip.inj hr2).symm hne2
    · refine ⟨htc, ⟨isteps, roll ++ [StepEv.updateTickSkipped], by simp [hst], by simp⟩,
        by rw [hstat]; simp, houtc, hws, ?_, ?_⟩
      · rw [hsteps, hst]
        rcases hi with hi | hi <;> rcases hr with hr | hr <;> simp [hi, hr]
      · rw [hsteps, hst]
        rcases hi with hi | hi <;> rcases hr with hr | hr <;> simp [hi, hr]
    · rw [h] at hp
      exact absurd hp (by simp)

/-- Concrete witness for C6: a forced tick with exhausted budget creates the
record, finalises it as skipped, and runs nothing else. -/
theorem c6_witness :
    (SkipReason.budgetExhausted ≠ .budgetExhausted →
      (gateEval cfg0 inpForcedNoBudget).tickCreated = false
      ∧ StepEv.createTick ∉ (gateEval cfg0 inpForcedNoBudget).steps
      ∧ StepEv.updateTickSkipped ∉ (gateEval cfg0 inpForcedNoBudget).steps
      ∧ (agentTick cfg0 inpForcedNoBudget (fun _ => sampleEnv) llmTwoActions
          "2026-10-12T10:00:00Z").status = .skippedNoRecord .budgetExhausted)
    ∧ (SkipReason.budgetExhausted = .budgetExhausted →
      (gateEval cfg0 inpForcedNoBudget).tickCreated = true
      ∧ (∃ l1 l2, (gateEval cfg0 inpForcedNoBudget).steps
            = l1 ++ StepEv.createTick :: l2
          ∧ StepEv.updateTickSkipped ∈ l2)
      ∧ (agentTick cfg0 inpForcedNoBudget (fun _ => sampleEnv) llmTwoActions
          "2026-10-12T10:00:00Z").status = .skippedBudget
      ∧ (agentTick cfg0 inpForcedNoBudget (fun _ => sampleEnv) llmTwoActions
          "2026-10-12T10:00:00Z").outcomes = []
      ∧ (agentTick cfg0 inpForcedNoBudget (fun _ => sampleEnv) llmTwoActions
          "2026-10-12T10:00:00Z").writtenState = none
      ∧ StepEv.gatherContext ∉ (agentTick cfg0 inpForcedNoBudget (fun _ => sampleEnv)
          llmTwoActions "2026-10-12T10:00:00Z").steps
      ∧ StepEv.llmDecision ∉ (agentTick cfg0 inpForcedNoBudget (fun _ => sampleEnv)
          llmTwoActions "2026-10-12T10:00:00Z").steps) :=
  c6_skip_record_discipline cfg0 inpForcedNoBudget (fun _ => sampleEnv) llmTwoActions
    "2026-10-12T10:00:00Z" .budgetExhausted (by decide)

/-! ## Claim C7: daily budget rollover -/

/-- Claim C7 evaluation at the failing input: with a stale reset date, the
rollover resets the budget to the configured default but leaves
`budgetResetDate` at the stale value (the `upsertAgentState` payload never
contains `budget_reset_at`), so a second check on the same new day — after 10
budget was spent — resets the budget again instead of being a no-op, and
today's date is never stamped. -/
theorem c7_rollover_not_stamped :
    stateStaleReset.budgetResetDate ≠ "2026-10-12"
    ∧ (rolloverBudget cfg0 "2026-10-12" stateStaleReset).budgetRemaining = 250
    ∧ (rolloverBudget cfg0 "2026-10-12" stateStaleReset).budgetResetDate
        = stateStaleReset.budgetResetDate
    ∧ (rolloverBudget cfg0 "2026-10-12"
        { rolloverBudget cfg0 "2026-10-12" stateStaleReset with
            budgetRemaining := 240 }).budgetRemaining = 250
    ∧ (rolloverBudget cfg0 "2026-10-12"
        { rolloverBudget cfg0 "2026-10-12" stateStaleReset with
            budgetRemaining := 240 })
        ≠ { rolloverBudget cfg0 "2026-10-12" stateStaleReset with
            budgetRemaining := 240 } := by
  refine ⟨?_, ?_, ?_, ?_, ?_⟩ <;> decide

/-! ## Claim C8: memory merge -/

/-- Claim C8 counterexample: the forget-list removal is exact-match only —
forgetting "hello" leaves the stored "Hello" in place although the two are
case-insensitively equal — and two newly added observations that differ only
by case are both kept, so the merged memory can contain case-insensitive
duplicates. -/
theorem c8_counterexample :
    mergeObservations ["Hello"] ["a", "A"] ["hello"] = ["a", "A", "Hello"]
    ∧ jsToLower "hello" = jsToLower "Hello"
    ∧ jsToLower "a" = jsToLower "A" := by
  refine ⟨?_, ?_, ?_⟩ <;> decide

/-- Claim C8 as amended: the merge removes existing entries exactly contained
in the forget list, removes existing entries that case-insensitively
duplicate a new entry, prepends the new entries, and truncates to 20; the
result has length at most 20, is ordered new-entries-first followed by the
surviving old entries in their stored order, and — provided the new entries
are pairwise case-insensitively distinct and the prior memory was
deduplicated — contains no two case-insensitively-equal entries. -/
theorem c8_memory_merge (existingObs newObs forget : List String)
    (hnew : newObs.Pairwise (fun a b => jsToLower a ≠ jsToLower b))
    (hex : existingObs.Pairwise (fun a b => jsToLower a ≠ jsToLower b)) :
    (mergeObservations existingObs newObs forget).length ≤ 20
    ∧ (mergeObservations existingObs newObs forget).Pairwise
        (fun a b => jsToLower a ≠ jsToLower b)
    ∧ ∃ kept, kept.Sublist existingObs
        ∧ (∀ o ∈ kept, o ∉ forget ∧ ∀ n ∈ newObs, jsToLower n ≠ jsToLower o)
        ∧ mergeObservations existingObs newObs forget = (newObs ++ kept).take 20 := by
  have hmem : ∀ o ∈ existingObs.filter (fun obs =>
      !(forget.contains obs) && !(newObs.any (fun n => jsToLower n == jsToLower obs))),
      o ∉ forget ∧ ∀ n ∈ newObs, jsToLower n ≠ jsToLower o := by
    intro o ho
    obtain ⟨_, hp⟩ := List.mem_filter.mp ho
    obtain ⟨h1, h2⟩ := Bool.and_eq_true _ _ |>.mp hp
    refine ⟨by simpa using Bool.not_eq_true' .. |>.mp h1, fun n hn hc => ?_⟩
    have h2f := Bool.not_eq_true' .. |>.mp h2
    have h2t : newObs.any (fun n => jsToLower n == jsToLower o) = true :=
      List.any_eq_true.mpr ⟨n, hn, by simp [hc]⟩
    rw [h2t] at h2f
    cases h2f
  have hsub : (existingObs.filter (fun obs =>
      !(forget.contains obs) && !(newObs.any (fun n => jsToLower n == jsToLower obs)))).Sublist
        existingObs := List.filter_sublist _
  refine ⟨?_, ?_, ?_⟩
  · simp only [mergeObservations, List.length_take]
    exact min_le_left _ _
  · have happ : (newObs ++ existingObs.filter (fun obs =>
        !(forget.contains obs) && !(newObs.any (fun n => jsToLower n == jsToLower obs)))).Pairwise
          (fun a b => jsToLower a ≠ jsToLower b) := by
      rw [List.pairwise_append]
      exact ⟨hnew, hex.sublist hsub, fun a ha b hb => ((hmem b hb).2 a ha)⟩
    exact (happ.sublist (List.take_sublist _ _))
  · exact ⟨_, hsub, hmem, rfl⟩

/-- Concrete witness for C8. -/
theorem c8_witness :
    (["Fresh"].Pairwise (fun a b => jsToLower a ≠ jsToLower b))
    ∧ (["Old note", "Keep me"].Pairwise (fun a b => jsToLower a ≠ jsToLower b))
    ∧ ((mergeObservations ["Old note", "Keep me"] ["Fresh"] ["Old note"]).length ≤ 20
      ∧ (mergeObservations ["Old note", "Keep me"] ["Fresh"] ["Old note"]).Pairwise
          (fun a b => jsToLower a ≠ jsToLower b)
      ∧ ∃ kept, kept.Sublist ["Old note", "Keep me"]
          ∧ (∀ o ∈ kept, o ∉ ["Old note"] ∧ ∀ n ∈ ["Fresh"], jsToLower n ≠ jsToLower o)
          ∧ mergeObservations ["Old note", "Keep me"] ["Fresh"] ["Old note"]
              = (["Fresh"] ++ kept).take 20) :=
  ⟨by decide, by decide,
   c8_memory_merge ["Old note", "Keep me"] ["Fresh"] ["Old note"] (by decide) (by decide)⟩

/-! ## Claim C9: Precedent channel-post guardrail -/

/-- Claim C9 counterexample: a channel post addressed to a channel name that
does not resolve fails with the channel-not-found exception message, not with
the error directing use of the `use_precedent` action, even though its text
mentions `@Precedent`; the claimed error message therefore does not hold for
every such action. -/
theorem c9_counterexample :
    mentionsPrecedent "@Precedent please advise" = true
    ∧ (executeAction sampleEnv
        (.send_slack_message "#ghost" "@Precedent please advise" none)).result.success
        = false
    ∧ (executeAction sampleEnv
        (.send_slack_message "#ghost" "@Precedent please advise" none)).result.error
        = some "Channel not found: #ghost"
    ∧ some precedentChannelBlockMessage ≠ some "Channel not found: #ghost"
    ∧ (executeAction sampleEnv
        (.send_slack_message "#ghost" "@Precedent please advise" none)).dispatched
        = [] := by
  refine ⟨?_, ?_, ?_, ?_, ?_⟩ <;> decide

/-- Claim C9 as amended: a channel post whose text matches the reserved
Precedent pattern is never dispatched and always yields one failed logged
ActionResult; whenever the channel reference is already an id or resolves,
the error is precisely the message directing use of the `use_precedent`
action; and the `use_precedent` escalation path only ever dispatches a direct
message. -/
theorem c9_precedent_channel_guardrail (env : Env) (channel text : String)
    (ts : Option String) (hm : mentionsPrecedent text = true) :
    (executeAction env (.send_slack_message channel text ts)).dispatched = []
    ∧ (executeAction env (.send_slack_message channel text ts)).result.success = false
    ∧ (executeAction env (.send_slack_message channel text ts)).logs.length = 1
    ∧ (∀ l ∈ (executeAction env (.send_slack_message channel text ts)).logs,
        l.success = false)
    ∧ ((jsStartsWith channel "#" = false
        ∨ (∃ cid, env.resolveChannel channel = some cid)) →
        (executeAction env (.send_slack_message channel text ts)).result.error
          = some precedentChannelBlockMessage)
    ∧ (∀ (env2 : Env) (intent : String) (q xc ts2 : Option String),
        ∀ d ∈ (executeAction env2 (.use_precedent intent q xc ts2)).dispatched,
          ∃ uid msg, d = .slackDm uid msg) := by
  have hdm : ∀ (env2 : Env) (intent : String) (q xc ts2 : Option String),
      ∀ d ∈ (executeAction env2 (.use_precedent intent q xc ts2)).dispatched,
        ∃ uid msg, d = .slackDm uid msg := by
    intro env2 intent q xc ts2 d hd
    simp only [executeAction] at hd
    repeat' split at hd
    all_goals simp_all [catchOutcome]
  cases hch : jsStartsWith channel "#" with
  | false =>
    refine ⟨?_, ?_, ?_, ?_, ?_, hdm⟩
    all_goals simp [executeAction, hch, hm]
  | true =>
    cases hres : env.resolveChannel channel with
    | none =>
      refine ⟨?_, ?_, ?_, ?_, ?_, hdm⟩
      all_goals simp [executeAction, hch, hres, catchOutcome]
    | some cid =>
      refine ⟨?_, ?_, ?_, ?_, ?_, hdm⟩
      all_goals simp [executeAction, hch, hres, hm]

/-- Concrete witness for C9 (amended): a direct channel-id post mentioning
Precedent is blocked with the directing error. -/
theorem c9_witness :
    mentionsPrecedent "Please ask @Precedent about this" = true
    ∧ ((executeAction sampleEnv
          (.send_slack_message "C1" "Please ask @Precedent about this" none)).dispatched = []
      ∧ (executeAction sampleEnv
          (.send_slack_message "C1" "Please ask @Precedent about this" none)).result.success
          = false
      ∧ (executeAction sampleEnv
          (.send_slack_message "C1" "Please ask @Precedent about this" none)).logs.length = 1
      ∧ (∀ l ∈ (executeAction sampleEnv
          (.send_slack_message "C1" "Please ask @Precedent about this" none)).logs,
          l.success = false)
      ∧ ((jsStartsWith "C1" "#" = false
          ∨ (∃ cid, sampleEnv.resolveChannel "C1" = some cid)) →
          (executeAction sampleEnv
            (.send_slack_message "C1" "Please ask @Precedent about this" none)).result.error
            = some precedentChannelBlockMessage)
      ∧ (∀ (env2 : Env) (intent : String) (q xc ts2 : Option String),
          ∀ d ∈ (executeAction env2 (.use_precedent intent q xc ts2)).dispatched,
            ∃ uid msg, d = .slackDm uid msg)) :=
  ⟨by decide,
   c9_precedent_channel_guardrail sampleEnv "C1" "Please ask @Precedent about this"
     none (by decide)⟩

/-! ## Claim C10: frame effect of the final state write -/

/-- On a proceeding gate, the post-rollover state is the rollover of the
fetched (or lazily initialised) state, which was active. -/
theorem gateEval_proceed_spec (cfg : Config) (inp : TickInput) (s1 : AgentStateM)
    (hp : (gateEval cfg inp).outcome = .proceed s1) :
    (gateEval cfg inp).stateRead = some (gateState0 cfg inp)
    ∧ s1 = rolloverBudget cfg inp.today (gateState0 cfg inp)
    ∧ (gateState0 cfg inp).isActive = true := by
  unfold gateEval at hp ⊢
  split_ifs at hp ⊢
  all_goals simp_all

/-- The rollover touches only the budget (and re-asserts activity); notes,
reset date and tick references are carried through. -/
theorem rolloverBudget_frame (cfg : Config) (today : String) (s : AgentStateM) :
    (rolloverBudget cfg today s).notes = s.notes
    ∧ (rolloverBudget cfg today s).budgetResetDate = s.budgetResetDate
    ∧ (rolloverBudget cfg today s).lastTickAtMs = s.lastTickAtMs
    ∧ (rolloverBudget cfg today s).lastTickId = s.lastTickId
    ∧ (s.isActive = true → (rolloverBudget cfg today s).isActive = true) := by
  unfold rolloverBudget applyUpsert
  split_ifs <;> simp

/-- Claim C10: when the oracle decision carries no memory-update instruction,
the state written at the end of the cycle keeps the prior state's notes,
budget reset date and activity flag unchanged; only the tick stamp, the tick
reference and the budget differ. -/
theorem c10_no_memory_update_frame (cfg : Config) (inp : TickInput) (env : Nat → Env)
    (llmOutput : AgentOutput) (nowIso : String) (s1 : AgentStateM)
    (hp : (gateEval cfg inp).outcome = .proceed s1)
    (hmem : llmOutput.memoryUpdates = none) :
    ∃ w, (agentTick cfg inp env llmOutput nowIso).writtenState = some w
      ∧ w.notes = (gateState0 cfg inp).notes
      ∧ w.budgetResetDate = (gateState0 cfg inp).budgetResetDate
      ∧ w.isActive = (gateState0 cfg inp).isActive
      ∧ w.lastTickAtMs = some inp.nowMs
      ∧ w.lastTickId = some inp.tickId := by
  obtain ⟨hsr, hs1, hact⟩ := gateEval_proceed_spec cfg inp s1 hp
  obtain ⟨hn, hbd, _, _, hia⟩ := rolloverBudget_frame cfg inp.today (gateState0 cfg inp)
  simp only [agentTick, hp]
  refine ⟨_, rfl, ?_, ?_, ?_, ?_, ?_⟩
  · simp [applyUpsert, updateNotes, hmem, hs1, hn]
  · simp [applyUpsert, hs1, hbd]
  · simp [applyUpsert, hact, hia hact]
  · simp [applyUpsert]
  · simp [applyUpsert]

/-- Concrete witness for C10. -/
theorem c10_witness :
    (gateEval cfg0 inp8).outcome = .proceed state8
    ∧ llmTwoActions.memoryUpdates = none
    ∧ ∃ w, (agentTick cfg0 inp8 (fun _ => sampleEnv) llmTwoActions
              "2026-10-12T10:00:00Z").writtenState = some w
        ∧ w.notes = (gateState0 cfg0 inp8).notes
        ∧ w.budgetResetDate = (gateState0 cfg0 inp8).budgetResetDate
        ∧ w.isActive = (gateState0 cfg0 inp8).isActive
        ∧ w.lastTickAtMs = some inp8.nowMs
        ∧ w.lastTickId = some inp8.tickId :=
  ⟨by decide, rfl,
   c10_no_memory_update_frame cfg0 inp8 (fun _ => sampleEnv) llmTwoActions
     "2026-10-12T10:00:00Z" state8 (by decide) rfl⟩

end HumanSent
